import Mathlib

/-!
Verification of the farm-submission configuration for the publish API webinar.

The repository has three Python source files:

* `hooks/tk-multi-publish2/farm_wrapper.py` — the publish-plugin wrapper that
  adds a boolean "Submit to Farm" setting to each task and skips local
  publish/finalize for tasks routed to the farm;
* `hooks/tk-multi-publish2/farm_submission.py` — the post-publish hook that,
  on the artist's machine, serializes the DCC state and the publish tree to a
  shared location when at least one task is flagged for the farm;
* `render_node.py` — the worker-side bootstrap script that reloads the DCC
  state, starts the engine, loads the scene and publishes exactly the
  farm-flagged tasks.

This file gives a shallow embedding of the data model (publish tree, tasks,
settings, the serialized DCC state record) and of the operations those claims
are about, and proves the spec's claims against it.
-/

namespace TkConfigPublish

/-! ## Data model: publish tree, items, tasks, settings -/

/-- A plugin setting value.  The one setting this configuration tracks,
"Submit to Farm", is declared with `"type": "bool"` in `farm_wrapper.py`,
so its current value is a boolean. -/
structure SettingValue where
  value : Bool
  deriving DecidableEq, Repr

/-- A publish task: its plugin name and its settings mapping
(name unique per task, modelled as an association list). -/
structure PublishTask where
  name : String
  settings : List (String × SettingValue)
  deriving DecidableEq, Repr

/-- A publish item, owning an ordered sequence of tasks. -/
structure PublishItem where
  name : String
  tasks : List PublishTask
  deriving DecidableEq, Repr

/-- The publish tree: an ordered forest of items (iteration over the tree
yields the items in order, as in `for item in tree`). -/
abbrev PublishTree := List PublishItem

/-- The setting key used throughout the hooks
(`_SUBMIT_TO_FARM = "Submit to Farm"`). -/
def SUBMIT_TO_FARM : String := "Submit to Farm"

/-! ## TaskFilter

`render_node.py` line 136 tests
`"Submit to Farm" in task.settings and task.settings["Submit to Farm"].value is True`,
and `farm_submission.py` line 66 tests the same membership followed by
truthiness of `.value`; with boolean-valued settings both are the predicate
below. -/

/-- Does this task carry the named setting with value `true`?
Key absent yields `false` (the `in task.settings` guard). -/
def taskSubmitsToFarm (key : String) (task : PublishTask) : Bool :=
  match task.settings.lookup key with
  | some s => s.value
  | none => false

/-- The remote selection for an arbitrary key: the generator of
`publish_items` in `render_node.py` (lines 130-137), which walks items in
tree order and tasks in item order and yields those whose setting is `true`. -/
def generatorKey (key : String) (tree : PublishTree) : List PublishTask :=
  (tree.map (fun item => item.tasks.filter (fun task => taskSubmitsToFarm key task))).flatten

/-- The generator with the key hard-coded to `"Submit to Farm"`, as in the
source. -/
def generator (tree : PublishTree) : List PublishTask :=
  generatorKey SUBMIT_TO_FARM tree

/-- All tasks of the tree, in tree order (items in order, tasks within each
item in order). -/
def allTasks (tree : PublishTree) : List PublishTask :=
  (tree.map (fun item => item.tasks)).flatten

/-- The local selection: the tasks the submitting process executes itself,
i.e. exactly those the generator does not yield (the `else` branch of
`FarmWrapper.publish`/`finalize`, which calls the base implementation). -/
def localSelectionKey (key : String) (tree : PublishTree) : List PublishTask :=
  (tree.map (fun item => item.tasks.filter (fun task => ! taskSubmitsToFarm key task))).flatten

/-- `FarmSubmission._has_render_submissions` (farm_submission.py lines 60-68),
generalized over the key: `true` iff some item has some task whose setting
exists and is truthy. -/
def hasRenderSubmissionsKey (key : String) (tree : PublishTree) : Bool :=
  tree.any (fun item => item.tasks.any (fun task => taskSubmitsToFarm key task))

/-- `_has_render_submissions` with the source's hard-coded key. -/
def hasRenderSubmissions (tree : PublishTree) : Bool :=
  hasRenderSubmissionsKey SUBMIT_TO_FARM tree

/-! ## Basic membership lemmas for the selections -/

theorem mem_allTasks {tree : PublishTree} {t : PublishTask} :
    t ∈ allTasks tree ↔ ∃ item ∈ tree, t ∈ item.tasks := by
  simp [allTasks, List.mem_flatten]

theorem mem_generatorKey {key : String} {tree : PublishTree} {t : PublishTask} :
    t ∈ generatorKey key tree ↔
      (∃ item ∈ tree, t ∈ item.tasks) ∧ taskSubmitsToFarm key t = true := by
  constructor
  · intro h
    simp only [generatorKey, List.mem_flatten, List.mem_map] at h
    obtain ⟨l, ⟨item, hitem, rfl⟩, hmem⟩ := h
    rw [List.mem_filter] at hmem
    exact ⟨⟨item, hitem, hmem.1⟩, hmem.2⟩
  · rintro ⟨⟨item, hitem, htask⟩, hflag⟩
    simp only [generatorKey, List.mem_flatten, List.mem_map]
    exact ⟨item.tasks.filter (fun task => taskSubmitsToFarm key task),
      ⟨item, hitem, rfl⟩, List.mem_filter.mpr ⟨htask, hflag⟩⟩

theorem mem_localSelectionKey {key : String} {tree : PublishTree} {t : PublishTask} :
    t ∈ localSelectionKey key tree ↔
      (∃ item ∈ tree, t ∈ item.tasks) ∧ taskSubmitsToFarm key t = false := by
  constructor
  · intro h
    simp only [localSelectionKey, List.mem_flatten, List.mem_map] at h
    obtain ⟨l, ⟨item, hitem, rfl⟩, hmem⟩ := h
    rw [List.mem_filter] at hmem
    refine ⟨⟨item, hitem, hmem.1⟩, ?_⟩
    simpa using hmem.2
  · rintro ⟨⟨item, hitem, htask⟩, hflag⟩
    simp only [localSelectionKey, List.mem_flatten, List.mem_map]
    refine ⟨item.tasks.filter (fun task => ! taskSubmitsToFarm key task),
      ⟨item, hitem, rfl⟩, List.mem_filter.mpr ⟨htask, ?_⟩⟩
    simp [hflag]

/-- C1: For every work tree and boolean setting key, the remote selection
(tasks whose setting exists and is true) and the local selection (all other
tasks) partition the set of all tasks: every task is in exactly one of the
two selections, with no overlap and no omission, and a task lacking the
setting entirely falls in the local partition. -/
theorem c1_filter_partition (tree : PublishTree) (key : String) :
    (∀ t ∈ allTasks tree,
        (t ∈ generatorKey key tree ∧ t ∉ localSelectionKey key tree) ∨
        (t ∈ localSelectionKey key tree ∧ t ∉ generatorKey key tree)) ∧
    (∀ t, t ∈ generatorKey key tree ∨ t ∈ localSelectionKey key tree →
        t ∈ allTasks tree) ∧
    (∀ t ∈ allTasks tree, t.settings.lookup key = none →
        t ∈ localSelectionKey key tree) := by
  refine ⟨?_, ?_, ?_⟩
  · intro t ht
    rw [mem_allTasks] at ht
    cases hflag : taskSubmitsToFarm key t with
    | true =>
        left
        refine ⟨mem_generatorKey.mpr ⟨ht, hflag⟩, fun hc => ?_⟩
        have := (mem_localSelectionKey.mp hc).2
        rw [hflag] at this
        simp at this
    | false =>
        right
        refine ⟨mem_localSelectionKey.mpr ⟨ht, hflag⟩, fun hc => ?_⟩
        have := (mem_generatorKey.mp hc).2
        rw [hflag] at this
        simp at this
  · intro t ht
    rcases ht with h | h
    · exact mem_allTasks.mpr (mem_generatorKey.mp h).1
    · exact mem_allTasks.mpr (mem_localSelectionKey.mp h).1
  · intro t ht hnone
    rw [mem_allTasks] at ht
    refine mem_localSelectionKey.mpr ⟨ht, ?_⟩
    simp [taskSubmitsToFarm, hnone]

/-- Witness for C1 at the spec's end-to-end scenario: item A with task t1
(flag true) and t2 (flag absent), item B with task t3 (flag true). -/
theorem c1_filter_partition_witness :
    (∀ t ∈ allTasks [⟨"A", [⟨"t1", [(SUBMIT_TO_FARM, ⟨true⟩)]⟩, ⟨"t2", []⟩]⟩,
                     ⟨"B", [⟨"t3", [(SUBMIT_TO_FARM, ⟨true⟩)]⟩]⟩],
        (t ∈ generatorKey SUBMIT_TO_FARM
              [⟨"A", [⟨"t1", [(SUBMIT_TO_FARM, ⟨true⟩)]⟩, ⟨"t2", []⟩]⟩,
               ⟨"B", [⟨"t3", [(SUBMIT_TO_FARM, ⟨true⟩)]⟩]⟩] ∧
         t ∉ localSelectionKey SUBMIT_TO_FARM
              [⟨"A", [⟨"t1", [(SUBMIT_TO_FARM, ⟨true⟩)]⟩, ⟨"t2", []⟩]⟩,
               ⟨"B", [⟨"t3", [(SUBMIT_TO_FARM, ⟨true⟩)]⟩]⟩]) ∨
        (t ∈ localSelectionKey SUBMIT_TO_FARM
              [⟨"A", [⟨"t1", [(SUBMIT_TO_FARM, ⟨true⟩)]⟩, ⟨"t2", []⟩]⟩,
               ⟨"B", [⟨"t3", [(SUBMIT_TO_FARM, ⟨true⟩)]⟩]⟩] ∧
         t ∉ generatorKey SUBMIT_TO_FARM
              [⟨"A", [⟨"t1", [(SUBMIT_TO_FARM, ⟨true⟩)]⟩, ⟨"t2", []⟩]⟩,
               ⟨"B", [⟨"t3", [(SUBMIT_TO_FARM, ⟨true⟩)]⟩]⟩])) :=
  (c1_filter_partition
    [⟨"A", [⟨"t1", [(SUBMIT_TO_FARM, ⟨true⟩)]⟩, ⟨"t2", []⟩]⟩,
     ⟨"B", [⟨"t3", [(SUBMIT_TO_FARM, ⟨true⟩)]⟩]⟩] SUBMIT_TO_FARM).1

/-- C4: the Submitter's gate "has at least one remote task"
(`_has_render_submissions`) returns `true` iff the filtered sequence of
remote-flagged tasks (the worker's generator) is non-empty. -/
theorem c4_gate_iff_nonempty (key : String) (tree : PublishTree) :
    hasRenderSubmissionsKey key tree = true ↔ generatorKey key tree ≠ [] := by
  constructor
  · intro h
    simp only [hasRenderSubmissionsKey, List.any_eq_true] at h
    obtain ⟨item, hitem, task, htask, hflag⟩ := h
    intro hnil
    have : task ∈ generatorKey key tree :=
      mem_generatorKey.mpr ⟨⟨item, hitem, htask⟩, hflag⟩
    rw [hnil] at this
    exact List.not_mem_nil task this
  · intro h
    cases hg : generatorKey key tree with
    | nil => exact absurd hg h
    | cons task rest =>
        have htask : task ∈ generatorKey key tree := hg ▸ List.mem_cons_self task rest
        obtain ⟨⟨item, hitem, hmem⟩, hflag⟩ := mem_generatorKey.mp htask
        simp only [hasRenderSubmissionsKey, List.any_eq_true]
        exact ⟨item, hitem, task, hmem, hflag⟩

/-- Witness for C4: a single-item tree whose only task carries the flag. -/
theorem c4_gate_iff_nonempty_witness :
    generatorKey SUBMIT_TO_FARM [⟨"A", [⟨"t1", [(SUBMIT_TO_FARM, ⟨true⟩)]⟩]⟩] ≠ [] :=
  (c4_gate_iff_nonempty SUBMIT_TO_FARM
    [⟨"A", [⟨"t1", [(SUBMIT_TO_FARM, ⟨true⟩)]⟩]⟩]).mp (by decide)

/-! ## Worker parameter loading: deriving the context entity

`render_node.py` line 49: `context_entity = context.task or context.entity
or context.project`.  A context field is either `None` (falsy) or an entity
dictionary; Python's `or` picks the first non-`None` field. -/

/-- A Shotgun entity reference, as stored in a context dictionary. -/
structure Entity where
  entity_type : String
  entity_id : Int
  deriving DecidableEq, Repr

/-- The reconstructed `sgtk.Context`: each of the three fields is either
absent (Python `None`) or an entity. -/
structure SgtkContext where
  task : Option Entity
  entity : Option Entity
  project : Option Entity
  deriving DecidableEq, Repr

/-- `context.task or context.entity or context.project`: Python `or`
returns its left operand when that operand is truthy (a non-`None` entity),
otherwise its right operand. -/
def context_entity (c : SgtkContext) : Option Entity :=
  match c.task with
  | some t => some t
  | none =>
    match c.entity with
    | some e => some e
    | none => c.project

/-- C8: the worker derives the execution entity as the first non-empty of
(task, entity, project) in that order: the result equals the task when the
task is non-empty, else the entity when it is non-empty, else the project. -/
theorem c8_context_entity_priority (c : SgtkContext) :
    (c.task ≠ none → context_entity c = c.task) ∧
    (c.task = none → c.entity ≠ none → context_entity c = c.entity) ∧
    (c.task = none → c.entity = none → context_entity c = c.project) := by
  refine ⟨?_, ?_, ?_⟩
  · intro h
    cases ht : c.task with
    | none => exact absurd ht h
    | some t => simp [context_entity, ht]
  · intro ht he
    cases he2 : c.entity with
    | none => exact absurd he2 he
    | some e => simp [context_entity, ht, he2]
  · intro ht he
    simp [context_entity, ht, he]

/-- Witness for C8: a context with no task but an entity selects the entity. -/
theorem c8_context_entity_priority_witness :
    context_entity ⟨none, some ⟨"Shot", 10⟩, some ⟨"Project", 1⟩⟩ =
      some ⟨"Shot", 10⟩ :=
  (c8_context_entity_priority ⟨none, some ⟨"Shot", 10⟩, some ⟨"Project", 1⟩⟩).2.1
    (by decide) (by decide)

/-! ## StateCodec: the serialized execution-context record

`FarmSubmission.post_publish` builds the `dcc_state` dictionary
(farm_submission.py lines 47-55) with five leaves: `session_path`,
`toolkit.pipeline_configuration_id`, `toolkit.context`,
`toolkit.engine_instance_name` and `toolkit.app_instance_name`; the context
dictionary (`engine.context.to_dict()`) is an opaque structured value,
modelled here as a finite string-to-string mapping. -/

/-- The execution-context record, mirroring the `dcc_state` dictionary. -/
structure DccState where
  session_path : String
  pipeline_configuration_id : Int
  context : List (String × String)
  engine_instance_name : String
  app_instance_name : String
  deriving DecidableEq, Repr

/-- A record is valid for submission when every field is present and
non-empty (spec §3 invariant). -/
def DccState.valid (st : DccState) : Bool :=
  st.session_path ≠ "" && st.context ≠ [] &&
    st.engine_instance_name ≠ "" && st.app_instance_name ≠ ""

/-- Modelled from the spec: the serializer itself is `tank_vendor.yaml`
(`safe_dump`/`safe_load`), which is not part of this repository's sources;
§4.2 requires only that `encode`/`decode` be inverse up to value equality on
every field and tolerant of non-ASCII text.  Strings are encoded as a length
followed by the Unicode code points of their characters, so any text
round-trips exactly. -/
def encodeString (s : String) : List Nat :=
  s.data.length :: s.data.map Char.toNat

/-- Modelled from the spec: read a length-prefixed string back from the byte
stream, returning the string and the remaining stream. -/
def decodeString (l : List Nat) : Option (String × List Nat) :=
  match l with
  | [] => none
  | n :: rest =>
    if n ≤ rest.length then
      some (⟨(rest.take n).map Char.ofNat⟩, rest.drop n)
    else none

/-- Modelled from the spec: an integer as a sign marker and a magnitude. -/
def encodeInt (i : Int) : List Nat :=
  (if i < 0 then 1 else 0) :: i.natAbs :: []

/-- Modelled from the spec: inverse of `encodeInt`. -/
def decodeInt (l : List Nat) : Option (Int × List Nat) :=
  match l with
  | sign :: mag :: rest =>
    if sign = 0 then some ((mag : Int), rest)
    else some (-(mag : Int), rest)
  | _ => none

/-- Modelled from the spec: the opaque context dictionary as a counted
sequence of key/value string pairs. -/
def encodePairs (ps : List (String × String)) : List Nat :=
  ps.length :: (ps.map (fun p => encodeString p.1 ++ encodeString p.2)).flatten

/-- Modelled from the spec: decode `n` key/value pairs from the stream. -/
def decodePairList : Nat → List Nat → Option (List (String × String) × List Nat)
  | 0, l => some ([], l)
  | n + 1, l => do
    let (k, l1) ← decodeString l
    let (v, l2) ← decodeString l1
    let (rest, l3) ← decodePairList n l2
    some ((k, v) :: rest, l3)

/-- Modelled from the spec: inverse of `encodePairs`. -/
def decodePairs (l : List Nat) : Option (List (String × String) × List Nat) :=
  match l with
  | [] => none
  | n :: rest => decodePairList n rest

/-- Modelled from the spec: `encode(record) -> bytes` — the five fields in a
fixed order. -/
def encodeDccState (st : DccState) : List Nat :=
  encodeString st.session_path ++ encodeInt st.pipeline_configuration_id ++
    encodePairs st.context ++ encodeString st.engine_instance_name ++
    encodeString st.app_instance_name

/-- Modelled from the spec: `decode(bytes) -> record`; any leftover input or
parse failure is a decoding error. -/
def decodeDccState (l : List Nat) : Option DccState := do
  let (sp, l1) ← decodeString l
  let (pc, l2) ← decodeInt l1
  let (ctx, l3) ← decodePairs l2
  let (en, l4) ← decodeString l3
  let (an, l5) ← decodeString l4
  if l5 = [] then
    some ⟨sp, pc, ctx, en, an⟩
  else
    none

/-! ### Round-trip lemmas for the codec -/

theorem decodeString_encodeString (s : String) (r : List Nat) :
    decodeString (encodeString s ++ r) = some (s, r) := by
  simp only [encodeString, decodeString, List.cons_append]
  rw [if_pos]
  · have htake : ((s.data.map Char.toNat ++ r).take s.data.length) = s.data.map Char.toNat := by
      simp
    have hdrop : ((s.data.map Char.toNat ++ r).drop s.data.length) = r := by
      simp
    rw [htake, hdrop]
    have hcomp : Char.ofNat ∘ Char.toNat = id := by
      funext c
      simp [Function.comp, Char.ofNat_toNat]
    rw [List.map_map, hcomp, List.map_id]
  · simp

theorem decodeInt_encodeInt (i : Int) (r : List Nat) :
    decodeInt (encodeInt i ++ r) = some (i, r) := by
  by_cases h : i < 0
  · have h1 : -|i| = i := by
      rw [abs_of_neg h]
      ring
    simp [encodeInt, decodeInt, h, h1]
  · have h1 : (i.natAbs : Int) = i := by omega
    simp [encodeInt, decodeInt, h, h1]

theorem decodePairList_encoded (ps : List (String × String)) (r : List Nat) :
    decodePairList ps.length
      ((ps.map (fun p => encodeString p.1 ++ encodeString p.2)).flatten ++ r) =
      some (ps, r) := by
  induction ps generalizing r with
  | nil => simp [decodePairList]
  | cons p rest ih =>
      simp only [List.map_cons, List.flatten_cons, List.length_cons, List.append_assoc]
      rw [decodePairList]
      rw [decodeString_encodeString]
      simp only [Option.bind_eq_bind, Option.some_bind]
      rw [decodeString_encodeString]
      simp only [Option.some_bind]
      rw [ih]
      rfl

theorem decodePairs_encodePairs (ps : List (String × String)) (r : List Nat) :
    decodePairs (encodePairs ps ++ r) = some (ps, r) := by
  simp only [encodePairs, decodePairs, List.cons_append]
  exact decodePairList_encoded ps r

/-- C2: for every valid ExecutionContextRecord (all five fields present and
non-empty, including non-ASCII multi-byte text, which the character-level
encoding preserves), decoding the encoded form yields a record equal
field-for-field to the original: `decode(encode(r)) = r`. -/
theorem c2_codec_round_trip (st : DccState) (h : st.valid = true) :
    decodeDccState (encodeDccState st) = some st := by
  have _hv := h
  simp only [decodeDccState, encodeDccState, List.append_assoc]
  rw [decodeString_encodeString]
  simp only [Option.bind_eq_bind, Option.some_bind]
  rw [decodeInt_encodeInt]
  simp only [Option.some_bind]
  rw [decodePairs_encodePairs]
  simp only [Option.some_bind]
  rw [decodeString_encodeString]
  simp only [Option.some_bind]
  have : decodeString (encodeString st.app_instance_name) =
      some (st.app_instance_name, []) := by
    have := decodeString_encodeString st.app_instance_name []
    simpa using this
  rw [this]
  rfl

/-- Witness for C2 at a concrete valid record whose fields contain
non-ASCII multi-byte text. -/
theorem c2_codec_round_trip_witness :
    DccState.valid ⟨"/proj/épisode_010/shot.ma", 42, [("project", "著作")],
      "tk-maya", "tk-multi-publish2"⟩ = true ∧
    decodeDccState (encodeDccState ⟨"/proj/épisode_010/shot.ma", 42,
      [("project", "著作")], "tk-maya", "tk-multi-publish2"⟩) =
      some ⟨"/proj/épisode_010/shot.ma", 42, [("project", "著作")],
        "tk-maya", "tk-multi-publish2"⟩ :=
  ⟨by decide,
   c2_codec_round_trip ⟨"/proj/épisode_010/shot.ma", 42, [("project", "著作")],
     "tk-maya", "tk-multi-publish2"⟩ (by decide)⟩

/-! ## FarmWrapper: local-side publish and finalize

`FarmWrapper._is_submitting_to_farm` (farm_wrapper.py lines 187-201) returns
`settings[_SUBMIT_TO_FARM].value and _is_on_local_computer()`;
`publish`/`finalize` (lines 152-185) skip the base implementation exactly
when it returns `True`.  `_is_on_local_computer()` is `True` in the artist's
interactive session and `False` in the worker's batch session; it is passed
here as a parameter. -/

/-- What `FarmWrapper.publish`/`finalize` does for one task. -/
inductive LocalAction
  | skippedForFarm
  | ranBase
  | keyError
  deriving DecidableEq, Repr

/-- `FarmWrapper._is_submitting_to_farm`: `none` models the `KeyError` that
`settings[self._SUBMIT_TO_FARM]` raises when the key is absent. -/
def is_submitting_to_farm (settings : List (String × SettingValue))
    (onLocalComputer : Bool) : Option Bool :=
  match settings.lookup SUBMIT_TO_FARM with
  | none => none
  | some s => some (s.value && onLocalComputer)

/-- `FarmWrapper.publish`: skip (and stash the publish user) when submitting
to the farm, otherwise run the base plugin's publish. -/
def farmWrapperPublish (settings : List (String × SettingValue))
    (onLocalComputer : Bool) : LocalAction :=
  match is_submitting_to_farm settings onLocalComputer with
  | none => .keyError
  | some true => .skippedForFarm
  | some false => .ranBase

/-- `FarmWrapper.finalize`: same gate as `publish`. -/
def farmWrapperFinalize (settings : List (String × SettingValue))
    (onLocalComputer : Bool) : LocalAction :=
  match is_submitting_to_farm settings onLocalComputer with
  | none => .keyError
  | some true => .skippedForFarm
  | some false => .ranBase

/-- C3: for every task of every tree whose remote-execution setting is
present, if the setting is true then the submitting process (where
`_is_on_local_computer()` is `true`) skips both publish and finalize and the
worker's selection includes the task; if it is false the submitting process
runs both and the worker's selection excludes it — no task runs on both
sides, none on neither. -/
theorem c3_local_remote_exclusive (tree : PublishTree) (task : PublishTask)
    (s : SettingValue)
    (hmem : task ∈ allTasks tree)
    (hset : task.settings.lookup SUBMIT_TO_FARM = some s) :
    (s.value = true →
      farmWrapperPublish task.settings true = .skippedForFarm ∧
      farmWrapperFinalize task.settings true = .skippedForFarm ∧
      task ∈ generator tree) ∧
    (s.value = false →
      farmWrapperPublish task.settings true = .ranBase ∧
      farmWrapperFinalize task.settings true = .ranBase ∧
      task ∉ generator tree) := by
  have hflag : taskSubmitsToFarm SUBMIT_TO_FARM task = s.value := by
    simp [taskSubmitsToFarm, hset]
  constructor
  · intro hv
    refine ⟨?_, ?_, ?_⟩
    · simp [farmWrapperPublish, is_submitting_to_farm, hset, hv]
    · simp [farmWrapperFinalize, is_submitting_to_farm, hset, hv]
    · exact mem_generatorKey.mpr ⟨mem_allTasks.mp hmem, hflag.trans hv⟩
  · intro hv
    refine ⟨?_, ?_, ?_⟩
    · simp [farmWrapperPublish, is_submitting_to_farm, hset, hv]
    · simp [farmWrapperFinalize, is_submitting_to_farm, hset, hv]
    · intro hc
      have := (mem_generatorKey.mp hc).2
      rw [hflag, hv] at this
      simp at this

/-- Witness for C3 at a one-item tree whose task carries the flag set true. -/
theorem c3_local_remote_exclusive_witness :
    ⟨"t1", [(SUBMIT_TO_FARM, ⟨true⟩)]⟩ ∈
        allTasks [⟨"A", [⟨"t1", [(SUBMIT_TO_FARM, ⟨true⟩)]⟩]⟩] ∧
    (farmWrapperPublish [(SUBMIT_TO_FARM, ⟨true⟩)] true = .skippedForFarm ∧
     farmWrapperFinalize [(SUBMIT_TO_FARM, ⟨true⟩)] true = .skippedForFarm ∧
     (⟨"t1", [(SUBMIT_TO_FARM, ⟨true⟩)]⟩ : PublishTask) ∈
        generator [⟨"A", [⟨"t1", [(SUBMIT_TO_FARM, ⟨true⟩)]⟩]⟩]) :=
  ⟨by decide,
   (c3_local_remote_exclusive [⟨"A", [⟨"t1", [(SUBMIT_TO_FARM, ⟨true⟩)]⟩]⟩]
      ⟨"t1", [(SUBMIT_TO_FARM, ⟨true⟩)]⟩ ⟨true⟩ (by decide) (by decide)).1 rfl⟩

/-! ## FarmSubmission: the post-publish submitter

`FarmSubmission.post_publish` (farm_submission.py lines 31-58) returns
immediately off the artist's machine, then gates on
`_has_render_submissions`, then builds the `dcc_state` record and calls
`_submit_to_farm`, which writes the tree artifact and the state artifact to
fixed paths under `/var/tmp/webinar`.  Durable storage is modelled as an
association list from path to content where a write prepends (the newest
entry shadows older ones, as a file overwrite does). -/

/-- Content of a durable artifact: the opaque serialized tree
(`tree.save_file`) or the yaml-dumped record bytes. -/
inductive FileContent
  | treeData (tree : PublishTree)
  | recordData (bytes : List Nat)
  deriving DecidableEq, Repr

/-- Durable storage: newest write first. -/
abbrev FileSystem := List (String × FileContent)

/-- Writing a file replaces whatever was visible at that path. -/
def writeFile (fs : FileSystem) (path : String) (content : FileContent) :
    FileSystem :=
  (path, content) :: fs

/-- Reading a file sees the newest write at that path. -/
def readFile (fs : FileSystem) (path : String) : Option FileContent :=
  fs.lookup path

/-- `submission_folder = "/var/tmp/webinar"` (farm_submission.py line 81). -/
def submission_folder : String := "/var/tmp/webinar"

/-- The fixed tree-artifact path (farm_submission.py line 86). -/
def publish_tree_path : String := submission_folder ++ "/publish2_tree.txt"

/-- The fixed record-artifact path (farm_submission.py line 90). -/
def dcc_state_path : String := submission_folder ++ "/dcc_state.txt"

/-- Observable submitter effects. -/
inductive SubmitEvent
  | builtRecord (st : DccState)
  | wroteTreeFile (path : String)
  | wroteStateFile (path : String)
  deriving DecidableEq, Repr

/-- `FarmSubmission._submit_to_farm`: save the tree, then dump the record,
both at fixed paths. -/
def submit_to_farm (st : DccState) (tree : PublishTree) (fs : FileSystem) :
    List SubmitEvent × FileSystem :=
  let fs1 := writeFile fs publish_tree_path (.treeData tree)
  let fs2 := writeFile fs1 dcc_state_path (.recordData (encodeDccState st))
  ([.wroteTreeFile publish_tree_path, .wroteStateFile dcc_state_path], fs2)

/-- `FarmSubmission.post_publish`: `isOnLocalComputer` is the result of
`_is_on_local_computer()` (`none` models the `NotImplementedError` raised on
an unsupported host, in which case the hook fails); `st` is the record the
hook would assemble from the engine if it reaches that point. -/
def post_publish (isOnLocalComputer : Option Bool) (st : DccState)
    (tree : PublishTree) (fs : FileSystem) :
    Option (List SubmitEvent × FileSystem) :=
  match isOnLocalComputer with
  | none => none
  | some false => some ([], fs)
  | some true =>
    if hasRenderSubmissions tree then
      let r := submit_to_farm st tree fs
      some (.builtRecord st :: r.1, r.2)
    else
      some ([], fs)

/-- C5: on a supported host, for every work tree with zero remote-flagged
tasks, the post-publish step performs zero writes to durable storage
(neither artifact is created, the filesystem is unchanged) and terminates as
a no-op rather than an error. -/
theorem c5_empty_submission_noop (b : Bool) (st : DccState)
    (tree : PublishTree) (fs : FileSystem)
    (h : hasRenderSubmissions tree = false) :
    post_publish (some b) st tree fs = some ([], fs) := by
  cases b with
  | false => rfl
  | true => simp [post_publish, h]

/-- Witness for C5: a tree whose only task lacks the flag triggers no write. -/
theorem c5_empty_submission_noop_witness :
    hasRenderSubmissions [⟨"A", [⟨"t2", []⟩]⟩] = false ∧
    post_publish (some true)
      ⟨"/p.ma", 1, [("k", "v")], "tk-maya", "tk-multi-publish2"⟩
      [⟨"A", [⟨"t2", []⟩]⟩] [] = some ([], []) :=
  ⟨by decide,
   c5_empty_submission_noop true
     ⟨"/p.ma", 1, [("k", "v")], "tk-maya", "tk-multi-publish2"⟩
     [⟨"A", [⟨"t2", []⟩]⟩] [] (by decide)⟩

/-- C10: on the worker (batch mode, so `_is_on_local_computer()` is
`false`), the post-publish step returns immediately: it builds no record,
writes no durable artifact, and leaves storage untouched — a consumed
record is never written back or submitted again. -/
theorem c10_worker_never_resubmits (st : DccState) (tree : PublishTree)
    (fs : FileSystem) :
    post_publish (some false) st tree fs = some ([], fs) :=
  rfl

/-! ## C9: artifacts of a prior submission

`_submit_to_farm` takes no job identifier: both artifacts always go to the
same two fixed paths under `/var/tmp/webinar`, so a second submission
overwrites the first submission's artifacts. -/

/-- A one-task tree that passes the submission gate. -/
def c9Tree : PublishTree :=
  [⟨"A", [⟨"t1", [(SUBMIT_TO_FARM, ⟨true⟩)]⟩]⟩]

/-- The record of the first submission. -/
def c9State1 : DccState :=
  ⟨"/proj/shot1.ma", 42, [("project", "p")], "tk-maya", "tk-multi-publish2"⟩

/-- The record of the second submission. -/
def c9State2 : DccState :=
  ⟨"/proj/shot2.ma", 43, [("project", "p")], "tk-maya", "tk-multi-publish2"⟩

/-- Counterexample to C9: the first submission leaves its record artifact
readable at the fixed state path, but after a second submission (a distinct
job with a distinct record) that path no longer holds the first
submission's contents — the second submission overwrote it. -/
theorem c9_counterexample :
    readFile (submit_to_farm c9State1 c9Tree []).2 dcc_state_path =
      some (.recordData (encodeDccState c9State1)) ∧
    readFile (submit_to_farm c9State2 c9Tree
        (submit_to_farm c9State1 c9Tree []).2).2 dcc_state_path ≠
      some (.recordData (encodeDccState c9State1)) := by
  constructor
  · decide
  · decide

/-- C9 as amended: because `_submit_to_farm` writes to the two fixed
artifact paths regardless of job, a second submission overwrites the first
submission's artifacts with its own tree and record; every other path in
durable storage keeps the contents it had before either submission (nothing
else is deleted or changed). -/
theorem c9_amended_fixed_paths (st1 st2 : DccState) (t1 t2 : PublishTree)
    (fs : FileSystem) (p : String)
    (hp1 : p ≠ publish_tree_path) (hp2 : p ≠ dcc_state_path) :
    readFile (submit_to_farm st2 t2 (submit_to_farm st1 t1 fs).2).2 p =
      readFile fs p ∧
    readFile (submit_to_farm st2 t2 (submit_to_farm st1 t1 fs).2).2
        dcc_state_path = some (.recordData (encodeDccState st2)) ∧
    readFile (submit_to_farm st2 t2 (submit_to_farm st1 t1 fs).2).2
        publish_tree_path = some (.treeData t2) := by
  have h1 : (p == publish_tree_path) = false := by
    simp [hp1]
  have h2 : (p == dcc_state_path) = false := by
    simp [hp2]
  have h3 : (publish_tree_path == dcc_state_path) = false := by decide
  refine ⟨?_, ?_, ?_⟩
  · simp [submit_to_farm, writeFile, readFile, List.lookup, h1, h2]
  · simp [submit_to_farm, writeFile, readFile, List.lookup]
  · simp [submit_to_farm, writeFile, readFile, List.lookup, h3]

/-- Witness for the amended C9 at concrete records, trees and an unrelated
path. -/
theorem c9_amended_fixed_paths_witness :
    ("/var/tmp/other.txt" : String) ≠ publish_tree_path ∧
    ("/var/tmp/other.txt" : String) ≠ dcc_state_path ∧
    readFile (submit_to_farm c9State2 c9Tree
        (submit_to_farm c9State1 c9Tree
          [("/var/tmp/other.txt", .recordData [7])]).2).2 "/var/tmp/other.txt" =
      readFile [("/var/tmp/other.txt", .recordData [7])] "/var/tmp/other.txt" :=
  ⟨by decide, by decide,
   (c9_amended_fixed_paths c9State1 c9State2 c9Tree c9Tree
      [("/var/tmp/other.txt", .recordData [7])] "/var/tmp/other.txt"
      (by decide) (by decide)).1⟩

/-! ## Executor: the worker-side two-pass run

`publish_items` (render_node.py lines 113-141) loads the tree and then runs
`manager.publish(generator(manager.tree))` followed by
`manager.finalize(generator(manager.tree))`: two fresh, independently
computed selections over the same loaded tree, the first driving every
selected task's publish (apply) and the second every selected task's
finalize.  The run is modelled as the sequence of per-task execution
events it produces. -/

/-- One per-task execution step of the worker run. -/
inductive ExecEvent
  | applyTask (t : PublishTask)
  | finalizeTask (t : PublishTask)
  deriving DecidableEq, Repr

/-- `manager.publish(tasks)`: apply each yielded task in order. -/
def managerPublish (tasks : List PublishTask) : List ExecEvent :=
  tasks.map ExecEvent.applyTask

/-- `manager.finalize(tasks)`: finalize each yielded task in order. -/
def managerFinalize (tasks : List PublishTask) : List ExecEvent :=
  tasks.map ExecEvent.finalizeTask

/-- The worker's `publish_items` run over a loaded tree: the publish pass
over one freshly computed selection, then the finalize pass over another. -/
def publish_items (tree : PublishTree) : List ExecEvent :=
  managerPublish (generator tree) ++ managerFinalize (generator tree)

/-- C6: the Executor's apply pass and finalize pass are two separate
complete traversals of the same remote selection: the run is exactly the
apply events of the selection, in order, followed by the finalize events of
the identical selection in the identical order, and every apply event
precedes every finalize event. -/
theorem c6_two_full_passes (tree : PublishTree) :
    publish_items tree =
      (generator tree).map ExecEvent.applyTask ++
        (generator tree).map ExecEvent.finalizeTask ∧
    (∀ (i : Nat) (t : PublishTask),
        (publish_items tree)[i]? = some (ExecEvent.applyTask t) →
        i < (generator tree).length) ∧
    (∀ (j : Nat) (u : PublishTask),
        (publish_items tree)[j]? = some (ExecEvent.finalizeTask u) →
        (generator tree).length ≤ j) ∧
    (∀ (i j : Nat) (t u : PublishTask),
        (publish_items tree)[i]? = some (ExecEvent.applyTask t) →
        (publish_items tree)[j]? = some (ExecEvent.finalizeTask u) → i < j) := by
  have happly : ∀ (i : Nat) (t : PublishTask),
      (publish_items tree)[i]? = some (ExecEvent.applyTask t) →
      i < (generator tree).length := by
    intro i t hi
    by_contra hge
    push_neg at hge
    simp only [publish_items, managerPublish, managerFinalize] at hi
    have hge' : ((generator tree).map ExecEvent.applyTask).length ≤ i := by
      simpa using hge
    rw [List.getElem?_append_right hge'] at hi
    rw [List.getElem?_map] at hi
    cases hsel : (generator tree)[i - ((generator tree).map ExecEvent.applyTask).length]? with
    | none => rw [hsel] at hi; simp at hi
    | some x => rw [hsel] at hi; simp at hi
  have hfin : ∀ (j : Nat) (u : PublishTask),
      (publish_items tree)[j]? = some (ExecEvent.finalizeTask u) →
      (generator tree).length ≤ j := by
    intro j u hj
    by_contra hlt
    push_neg at hlt
    simp only [publish_items, managerPublish, managerFinalize] at hj
    have hlt' : j < ((generator tree).map ExecEvent.applyTask).length := by
      simpa using hlt
    rw [List.getElem?_append_left hlt'] at hj
    rw [List.getElem?_map] at hj
    cases hsel : (generator tree)[j]? with
    | none => rw [hsel] at hj; simp at hj
    | some x => rw [hsel] at hj; simp at hj
  refine ⟨rfl, happly, hfin, ?_⟩
  intro i j t u hi hj
  have h1 := happly i t hi
  have h2 := hfin j u hj
  omega

/-- Witness for C6: the run structure at a two-item tree with one
remote-flagged task per item. -/
theorem c6_two_full_passes_witness :
    publish_items [⟨"A", [⟨"t1", [(SUBMIT_TO_FARM, ⟨true⟩)]⟩, ⟨"t2", []⟩]⟩,
                   ⟨"B", [⟨"t3", [(SUBMIT_TO_FARM, ⟨true⟩)]⟩]⟩] =
      (generator [⟨"A", [⟨"t1", [(SUBMIT_TO_FARM, ⟨true⟩)]⟩, ⟨"t2", []⟩]⟩,
                  ⟨"B", [⟨"t3", [(SUBMIT_TO_FARM, ⟨true⟩)]⟩]⟩]).map
          ExecEvent.applyTask ++
        (generator [⟨"A", [⟨"t1", [(SUBMIT_TO_FARM, ⟨true⟩)]⟩, ⟨"t2", []⟩]⟩,
                    ⟨"B", [⟨"t3", [(SUBMIT_TO_FARM, ⟨true⟩)]⟩]⟩]).map
          ExecEvent.finalizeTask :=
  (c6_two_full_passes
    [⟨"A", [⟨"t1", [(SUBMIT_TO_FARM, ⟨true⟩)]⟩, ⟨"t2", []⟩]⟩,
     ⟨"B", [⟨"t3", [(SUBMIT_TO_FARM, ⟨true⟩)]⟩]⟩]).1

/-! ## WorkerBootstrap: the render-node main sequence

`main` (render_node.py lines 151-165) runs `get_parameters`, then
`bootstrap_toolkit`, then `load_scene`, then `publish_items`, strictly in
that order; a Python exception in any step aborts the rest.  `load_scene`
(lines 99-110) raises `NotImplementedError` when the host application
(Maya) is not importable. -/

/-- The four completed phases of the worker bootstrap. -/
inductive BootstrapPhase
  | parametersLoaded
  | engineStarted
  | sceneLoaded
  | itemsPublished
  deriving DecidableEq, Repr

/-- The worker's environment: the bytes of the state file handed to
`get_parameters`, whether `bootstrap_toolkit` succeeds (credentials,
configuration and engine start), and whether the host application is
importable for `load_scene`. -/
structure WorkerEnv where
  dccStateBytes : List Nat
  engineBootstrapSucceeds : Bool
  mayaAvailable : Bool

/-- `load_scene`: open the scene in Maya, or raise
`NotImplementedError("Render farm script does not support the %s engine.")`
when the host application cannot be imported. -/
def load_scene (mayaAvailable : Bool) (engineName : String) :
    Except String Unit :=
  if mayaAvailable then Except.ok ()
  else Except.error
    ("Render farm script does not support the " ++ engineName ++ " engine.")

/-- `main`: the completed phases, in execution order, and the error that
aborted the run, if any. -/
def worker_main (env : WorkerEnv) : List BootstrapPhase × Option String :=
  match decodeDccState env.dccStateBytes with
  | none => ([], some "failed to load the dcc state file")
  | some st =>
    if env.engineBootstrapSucceeds then
      match load_scene env.mayaAvailable st.engine_instance_name with
      | Except.error e =>
          ([BootstrapPhase.parametersLoaded, BootstrapPhase.engineStarted],
           some e)
      | Except.ok () =>
          ([BootstrapPhase.parametersLoaded, BootstrapPhase.engineStarted,
            BootstrapPhase.sceneLoaded, BootstrapPhase.itemsPublished],
           none)
    else
      ([BootstrapPhase.parametersLoaded], some "engine bootstrap failed")

/-- C7: the phases complete strictly in the order ParametersLoaded,
EngineStarted, SceneLoaded, ItemsPublished, any failure aborting all
remaining steps; and when the SceneLoaded step fails because the host
application is unsupported — which raises an explicit error — the
ItemsPublished step never executes. -/
theorem c7_phase_order (env : WorkerEnv) :
    ((worker_main env).1 = [] ∨
     (worker_main env).1 = [BootstrapPhase.parametersLoaded] ∨
     (worker_main env).1 =
        [BootstrapPhase.parametersLoaded, BootstrapPhase.engineStarted] ∨
     (worker_main env).1 =
        [BootstrapPhase.parametersLoaded, BootstrapPhase.engineStarted,
         BootstrapPhase.sceneLoaded, BootstrapPhase.itemsPublished]) ∧
    (env.mayaAvailable = false →
      (∀ engineName, ∃ e,
          load_scene env.mayaAvailable engineName = Except.error e) ∧
      BootstrapPhase.sceneLoaded ∉ (worker_main env).1 ∧
      BootstrapPhase.itemsPublished ∉ (worker_main env).1) := by
  constructor
  · unfold worker_main
    cases decodeDccState env.dccStateBytes with
    | none => simp
    | some st =>
        cases hb : env.engineBootstrapSucceeds with
        | false => simp
        | true =>
            cases hm : env.mayaAvailable with
            | false => simp [load_scene]
            | true => simp [load_scene]
  · intro hm
    refine ⟨fun engineName =>
      ⟨"Render farm script does not support the " ++ engineName ++ " engine.",
       by simp [load_scene, hm]⟩, ?_⟩
    unfold worker_main
    cases decodeDccState env.dccStateBytes with
    | none => simp
    | some st =>
        cases hb : env.engineBootstrapSucceeds with
        | false => simp
        | true => simp [load_scene, hm]

/-- The environment of the C7 witness: a well-formed state file but Maya
not importable on the worker. -/
def c7Env : WorkerEnv :=
  ⟨encodeDccState
      ⟨"/proj/shot010.ma", 42, [("project", "p")], "tk-maya",
       "tk-multi-publish2"⟩,
   true, false⟩

/-- Witness for C7: with the scene step failing, publishing never runs. -/
theorem c7_phase_order_witness :
    BootstrapPhase.sceneLoaded ∉ (worker_main c7Env).1 ∧
    BootstrapPhase.itemsPublished ∉ (worker_main c7Env).1 :=
  ((c7_phase_order c7Env).2 rfl).2

end TkConfigPublish
